import Mathlib

/-!
Shallow embedding of the ride-matching and trip-lifecycle core of the
ride-hailing simulation (directory `Uber/` of the repository):

* `src/model/user.py`        — `Driver.try_book`, `Driver.mark_available`
* `src/model/vehicle.py`     — `Vehicle.supports`
* `src/model/trip.py`        — `Trip.start_ride`, `Trip.end_ride`, `TripStatus`
* `src/model/fare_quote.py`  — `FareQuote.is_expired`
* `src/common/spatial_index.py` — grid index `update` / `search`
* `src/strategy/matching/driver_matching_strategy.py` — the two strategies
* `src/service/driver_matching_service.py` — `find_nearest_driver`
* `src/service/ride_service.py` — `request_ride`, `start_ride`, `end_ride`

Modelling conventions, applied uniformly:
* Python floats (coordinates, ratings, fares, times) are modelled as exact
  rationals `ℚ`; wall-clock time (`datetime.now()`) is an explicit `now : ℚ`
  parameter measured in minutes.
* uuid4 identifiers are modelled as `ℕ` parameters supplied by the caller
  (uuid4 collisions are ignored, matching the code's implicit assumption);
  display-only string fields (names, phone numbers, plates, product names)
  are read by no logic and are omitted from the embedding.
* `random.randint` (the OTP) is an explicit `ℕ` parameter.
* Object mutation becomes explicit state passing: a `Driver`'s mutable
  `_is_available` flag lives in an availability map `ℕ → Bool` keyed by
  `user_id`, and the mutable `Trip` objects live in the trip registry of
  `RSState`.  Each Python method that runs under a lock is one atomic step
  of the embedding.
-/

namespace Uber

/-- Modelled from the spec: `src/model/location.py` is absent from the
sources.  The spec describes a location as a lat/lon pair and every use in
the source reads exactly `.latitude` and `.longitude` (constructed as
`Location(lat, lon)`). -/
structure Location where
  latitude : ℚ
  longitude : ℚ
deriving DecidableEq

/-- `ProductType` enum from `src/model/product.py`. -/
inductive ProductType where
  | UBER_GO
  | UBER_XL
  | UBER_SHARE
deriving DecidableEq

/-- `Product` from `src/model/product.py` (base class fields; the three
per-rate methods are pure constants used only by pricing, which no claim
touches, and the display name is omitted). -/
structure Product where
  id : ℕ
  product_type : ProductType
deriving DecidableEq

/-- `Vehicle` from `src/model/vehicle.py` (display fields `model`/`plate`
omitted). -/
structure Vehicle where
  supported_products : List ProductType
deriving DecidableEq

/-- `Vehicle.supports`: `product_type in self.supported_products`. -/
def Vehicle.supports (v : Vehicle) (product_type : ProductType) : Bool :=
  decide (product_type ∈ v.supported_products)

/-- `Driver` from `src/model/user.py`: identity, location, vehicle, rating.
The mutable `_is_available` flag is carried separately (see
`Driver.try_book`); display fields are omitted. -/
structure Driver where
  user_id : ℕ
  location : Location
  vehicle : Vehicle
  rating : ℚ
deriving DecidableEq

/-- `Driver.try_book` acting on the driver's `_is_available` flag: under the
per-driver lock, if available, flip to unavailable and return `true`, else
return `false` writing nothing.  Result is `(returned value, new flag)`. -/
def Driver.try_book (a : Bool) : Bool × Bool :=
  if a then (true, false) else (false, a)

/-- `Driver.mark_available`: sets `_is_available = True` under the lock. -/
def Driver.mark_available (_ : Bool) : Bool :=
  true

/-! ### Single-driver operation traces

The per-driver lock makes each `try_book` / `mark_available` call one atomic
step, so a concurrent history of calls on one driver is a sequence of these
operations applied to the flag. -/

/-- An atomic operation on one driver's availability flag. -/
inductive DriverOp where
  | tryBook
  | markAvailable
deriving DecidableEq

/-- Flag after one operation. -/
def DriverOp.step (a : Bool) : DriverOp → Bool
  | .tryBook => (Driver.try_book a).2
  | .markAvailable => Driver.mark_available a

/-- Flag after a sequence of operations starting from flag `a`. -/
def runOps (a : Bool) (ops : List DriverOp) : Bool :=
  ops.foldl DriverOp.step a

/-- The values returned by the `try_book` calls of a sequence of operations,
in call order. -/
def tryBookResults (a : Bool) : List DriverOp → List Bool
  | [] => []
  | DriverOp.tryBook :: rest =>
      (Driver.try_book a).1 :: tryBookResults (Driver.try_book a).2 rest
  | DriverOp.markAvailable :: rest =>
      tryBookResults (Driver.mark_available a) rest

/-! ### Matching strategies (`src/strategy/matching/driver_matching_strategy.py`)

Both strategies are Python `min(candidate_drivers, key=...)`: scan the list,
keep the earliest element whose key is strictly smaller than the best so
far, i.e. return the first element attaining the minimal key.

The source keys use the Euclidean distance
`((Δlat)**2 + (Δlon)**2)**0.5`.  The square root is strictly monotone on
the nonnegative reals, so comparing squared distances orders candidates
identically; the embedding keys on the (exact, computable) squared distance
`get_distance_sq` and the claim theorems restate minimality for the genuine
`Real.sqrt` distance as well. -/

/-- Python `min(l, key=key)` for nonempty `l` (first minimal element),
`none` for empty `l`. -/
def min_by_key {α κ : Type*} [LinearOrder κ] (key : α → κ) : List α → Option α
  | [] => none
  | x :: xs => some (xs.foldl (fun best d => if key d < key best then d else best) x)

/-- Squared Euclidean distance of `get_distance` in `NearestLocationStrategy`
(the source takes the square root of this; see the section comment). -/
def get_distance_sq (pickup : Location) (driver : Driver) : ℚ :=
  (driver.location.latitude - pickup.latitude) ^ 2 +
    (driver.location.longitude - pickup.longitude) ^ 2

/-- `NearestLocationStrategy.find_driver`: `None` on an empty candidate
list, otherwise `min` by distance to pickup. -/
def NearestLocationStrategy.find_driver (pickup : Location)
    (candidate_drivers : List Driver) : Option Driver :=
  min_by_key (get_distance_sq pickup) candidate_drivers

/-- `get_sort_key` of `RatingBasedMatchingStrategy`: the Python tuple
`(-driver.rating, distance)` compared lexicographically (Python tuple
order), distance squared as above. -/
def get_sort_key (pickup : Location) (driver : Driver) : ℚ ×ₗ ℚ :=
  toLex (-driver.rating, get_distance_sq pickup driver)

/-- `RatingBasedMatchingStrategy.find_driver`: `None` on an empty list,
otherwise `min` by `(-rating, distance)`. -/
def RatingBasedMatchingStrategy.find_driver (pickup : Location)
    (candidate_drivers : List Driver) : Option Driver :=
  min_by_key (get_sort_key pickup) candidate_drivers

/-! ### Spatial index (`src/common/spatial_index.py`) -/

/-- Python `int()` applied to a rational: truncation toward zero. -/
def pyint (q : ℚ) : ℤ :=
  if 0 ≤ q then ⌊q⌋ else -⌊-q⌋

namespace SpatialIndex

/-- Default `cell_size_degrees = 0.01`. -/
def cell_size : ℚ := 1 / 100

/-- `_get_cell_id`: `(int(lat / cell_size), int(lon / cell_size))`.  The
source renders this pair as the string `f"{x},{y}"`, an injective encoding
of the pair for integer `x, y`; the embedding keys cells by the pair
itself. -/
def get_cell_id (location : Location) : ℤ × ℤ :=
  (pyint (location.latitude / cell_size), pyint (location.longitude / cell_size))

/-- The grid `Dict[str, Set[Driver]]`, modelled as a total function from
cell id to the cell's set of driver ids (a missing dict key is the empty
set, matching the `if cell_id not in self._grid` initialisation).  Sets of
driver objects become duplicate-free lists of `user_id`s. -/
def Grid : Type := ℤ × ℤ → List ℕ

/-- The freshly constructed, empty grid. -/
def Grid.empty : Grid := fun _ => []

/-- `update(driver)`: compute the cell of the driver's *current* location
and add the driver to that cell's set.  (Note: the source performs no
removal from any other cell.)  A driver is passed as its identity plus its
current location, matching the mutable Python object. -/
def update (grid : Grid) (driver_id : ℕ) (location : Location) : Grid :=
  let cell_id := get_cell_id location
  fun c =>
    if c = cell_id then
      (if driver_id ∈ grid c then grid c else driver_id :: grid c)
    else grid c

/-- `search(center)`: union of the 3×3 Moore neighbourhood of the center's
cell (`radius_km` is ignored by the source). -/
def search (grid : Grid) (center : Location) : List ℕ :=
  let cx := pyint (center.latitude / cell_size)
  let cy := pyint (center.longitude / cell_size)
  ([-1, 0, 1] : List ℤ).flatMap fun dx =>
    ([-1, 0, 1] : List ℤ).flatMap fun dy =>
      grid (cx + dx, cy + dy)

end SpatialIndex

/-! ### Trip state machine (`src/model/trip.py`) -/

/-- `TripStatus` enum. -/
inductive TripStatus where
  | REQUESTED
  | ASSIGNED
  | IN_TRANSIT
  | COMPLETED
  | CANCELLED
deriving DecidableEq

/-- `Trip` domain object.  `trip_id` (uuid4) and `rider`/`driver` references
are `ℕ` identities; `driver` and `otp` start absent (`None`). -/
structure Trip where
  trip_id : ℕ
  rider : ℕ
  driver : Option ℕ
  pickup : Location
  dropoff : Location
  product : Product
  estimated_fare : ℚ
  status : TripStatus
  otp : Option ℕ
deriving DecidableEq

/-- `Trip.start_ride(otp)`: `False` unless status is `ASSIGNED` and the
supplied OTP equals the stored one; on success status becomes `IN_TRANSIT`.
Result is `(returned value, trip after the call)`. -/
def Trip.start_ride (t : Trip) (otp : ℕ) : Bool × Trip :=
  if t.status ≠ TripStatus.ASSIGNED then (false, t)
  else if t.otp ≠ some otp then (false, t)
  else (true, { t with status := TripStatus.IN_TRANSIT })

/-- `Trip.end_ride()`: `False` unless status is `IN_TRANSIT`; on success
status becomes `COMPLETED` and, if a driver is attached
(`if self.driver:`), that driver is marked available.  Takes and returns
the availability map holding every driver's `_is_available` flag. -/
def Trip.end_ride (t : Trip) (avail : ℕ → Bool) : Bool × Trip × (ℕ → Bool) :=
  if t.status ≠ TripStatus.IN_TRANSIT then (false, t, avail)
  else
    (true, { t with status := TripStatus.COMPLETED },
      match t.driver with
      | some d => fun x => if x = d then Driver.mark_available (avail x) else avail x
      | none => avail)

/-! ### Fare quote (`src/model/fare_quote.py`) -/

/-- `FareQuote`: immutable quote data.  Times are rational minutes;
`quote_id` is display-only and omitted. -/
structure FareQuote where
  amount : ℚ
  product : Product
  pickup : Location
  dropoff : Location
  timestamp : ℚ
  expiry_time : ℚ
deriving DecidableEq

/-- `FareQuote.__init__` with creation time `now`: `ttl_minutes = 5`,
`expiry_time = timestamp + 5 minutes`. -/
def FareQuote.create (amount : ℚ) (product : Product)
    (pickup dropoff : Location) (now : ℚ) : FareQuote :=
  { amount := amount, product := product, pickup := pickup, dropoff := dropoff,
    timestamp := now, expiry_time := now + 5 }

/-- `FareQuote.is_expired`: `datetime.now() > self.expiry_time`, with the
current time passed explicitly. -/
def FareQuote.is_expired (q : FareQuote) (now : ℚ) : Bool :=
  decide (q.expiry_time < now)

/-! ### Driver matching service (`src/service/driver_matching_service.py`)

The service owns a `DriverStorage`.  The embedding models the
`InMemoryListStorage` variant, whose `get_nearby_drivers` returns a snapshot
of all drivers irrespective of location (the `SpatialGridStorage` variant
differs only in pre-filtering by cell neighbourhood).  The matching strategy
is the constructor-injected function parameter. -/

/-- `InMemoryListStorage.get_nearby_drivers`: returns a copy of the whole
driver list, ignoring the location. -/
def InMemoryListStorage.get_nearby_drivers (drivers : List Driver)
    (_location : Location) : List Driver :=
  drivers

/-- `DriverMatchingService.find_nearest_driver`: (1) nearby lookup,
(2) filter by vehicle product support — availability is *not* consulted —
(3) delegate to the strategy. -/
def DriverMatchingService.find_nearest_driver
    (strategy : Location → List Driver → Option Driver)
    (drivers : List Driver) (pickup : Location) (product : Product) :
    Option Driver :=
  let nearby_drivers := InMemoryListStorage.get_nearby_drivers drivers pickup
  let candidate_drivers :=
    nearby_drivers.filter fun d => d.vehicle.supports product.product_type
  strategy pickup candidate_drivers

/-! ### Ride service (`src/service/ride_service.py`) -/

/-- The mutable state `RideService` (and the drivers it references) act on:
every driver's `_is_available` flag, keyed by `user_id`, and the trip
registry `self._trips : trip_id -> Trip`. -/
structure RSState where
  avail : ℕ → Bool
  trips : List (ℕ × Trip)

/-- Modelled from the spec: `src/common/exceptions.py` is absent from the
sources; the spec names the single hard failure `QuoteExpired`, raised by
`request_ride` and by nothing else. -/
inductive RideError where
  | quoteExpired
deriving DecidableEq

/-- `MAX_RETRIES = 5` in `request_ride`. -/
def MAX_RETRIES : ℕ := 5

/-- The `for _ in range(MAX_RETRIES)` booking loop of `request_ride`:
each iteration queries `find_nearest_driver`; `None` breaks the loop; a
successful `try_book` returns the booked driver and the updated
availability map; a failed `try_book` writes nothing and loops.  Fuel is
the number of remaining iterations. -/
def RideService.bookLoop (strategy : Location → List Driver → Option Driver)
    (drivers : List Driver) (pickup : Location) (product : Product) :
    ℕ → (ℕ → Bool) → Option Driver × (ℕ → Bool)
  | 0, avail => (none, avail)
  | n + 1, avail =>
    match DriverMatchingService.find_nearest_driver strategy drivers pickup product with
    | none => (none, avail)
    | some driver =>
      let r := Driver.try_book (avail driver.user_id)
      if r.1 then
        (some driver, fun x => if x = driver.user_id then r.2 else avail x)
      else
        RideService.bookLoop strategy drivers pickup product n avail

/-- `RideService.request_ride(rider, quote)`:
raise `QuoteExpiredException` if the quote is expired; otherwise build a
`REQUESTED` trip with the quote's locked-in fare, run the booking loop, and
on success attach the driver, set status `ASSIGNED`, set the generated OTP
and register the trip; on exhaustion (or no candidate) return the untouched
trip without registering it.  `trip_id` is the fresh uuid and `otp` the
`random.randint(1000, 9999)` draw, both passed explicitly; the ETA lookup
is a pure external collaborator with no effect on this state and is
elided. -/
def RideService.request_ride (strategy : Location → List Driver → Option Driver)
    (drivers : List Driver) (now : ℚ) (rider : ℕ) (quote : FareQuote)
    (trip_id : ℕ) (otp : ℕ) (st : RSState) :
    Except RideError Trip × RSState :=
  if quote.is_expired now then
    (Except.error RideError.quoteExpired, st)
  else
    let new_trip : Trip :=
      { trip_id := trip_id, rider := rider, driver := none,
        pickup := quote.pickup, dropoff := quote.dropoff,
        product := quote.product, estimated_fare := quote.amount,
        status := TripStatus.REQUESTED, otp := none }
    match RideService.bookLoop strategy drivers quote.pickup quote.product
        MAX_RETRIES st.avail with
    | (some driver, avail') =>
      let assigned :=
        { new_trip with driver := some driver.user_id,
                        status := TripStatus.ASSIGNED, otp := some otp }
      (Except.ok assigned,
        { avail := avail', trips := (trip_id, assigned) :: st.trips })
    | (none, avail') =>
      (Except.ok new_trip, { st with avail := avail' })

/-- `RideService.start_ride(trip_id, otp)`: `False` if the trip id is not
registered, otherwise delegate to `Trip.start_ride` (the Python code
mutates the registered trip object in place; the embedding rewrites the
registry entry). -/
def RideService.start_ride (trip_id : ℕ) (otp : ℕ) (st : RSState) :
    Bool × RSState :=
  match st.trips.lookup trip_id with
  | none => (false, st)
  | some trip =>
    let r := Trip.start_ride trip otp
    if r.1 then
      (true, { st with
        trips := st.trips.map fun p => if p.1 = trip_id then (trip_id, r.2) else p })
    else (false, st)

/-- `RideService.end_ride(trip_id)`: `False` if the trip id is not
registered, otherwise delegate to `Trip.end_ride`, which also releases the
attached driver. -/
def RideService.end_ride (trip_id : ℕ) (st : RSState) : Bool × RSState :=
  match st.trips.lookup trip_id with
  | none => (false, st)
  | some trip =>
    let r := Trip.end_ride trip st.avail
    if r.1 then
      (true,
        { avail := r.2.2,
          trips := st.trips.map fun p => if p.1 = trip_id then (trip_id, r.2.1) else p })
    else (false, st)

/-! ### Concrete fixtures

The configuration of spec scenario 3 (and of claim C1): two drivers near the
pickup, both supporting the requested product, the nearer one strictly
nearer; three riders request the same product and pickup with unexpired
quotes. -/

/-- A vehicle supporting only `UBER_GO` (as `v1`/`v2` in `main.py`). -/
def vGo : Vehicle := ⟨[ProductType.UBER_GO]⟩

/-- Driver id 1 at (0,0), rating 4.8 — the nearer driver. -/
def dA : Driver := ⟨1, ⟨0, 0⟩, vGo, 48 / 10⟩

/-- Driver id 2 at (1,1), rating 4.9 — the farther driver. -/
def dB : Driver := ⟨2, ⟨1, 1⟩, vGo, 49 / 10⟩

/-- The `UberGo` product. -/
def pGo : Product := ⟨1, ProductType.UBER_GO⟩

/-- A quote created at time 0 (expires at 5): pickup (0,0), dropoff (5,5). -/
def q0 : FareQuote := FareQuote.create 100 pGo ⟨0, 0⟩ ⟨5, 5⟩ 0

/-- Fresh service state: every driver available, no trips registered. -/
def st0 : RSState := ⟨fun _ => true, []⟩

/-- First `request_ride` call of the scenario (rider 201, trip id 11). -/
def run1 : Except RideError Trip × RSState :=
  RideService.request_ride NearestLocationStrategy.find_driver [dA, dB] 0 201 q0 11 1111 st0

/-- Second `request_ride` call, on the state left by the first. -/
def run2 : Except RideError Trip × RSState :=
  RideService.request_ride NearestLocationStrategy.find_driver [dA, dB] 0 202 q0 12 2222 run1.2

/-- Third `request_ride` call, on the state left by the second. -/
def run3 : Except RideError Trip × RSState :=
  RideService.request_ride NearestLocationStrategy.find_driver [dA, dB] 0 203 q0 13 3333 run2.2

/-- Projection of a `request_ride` outcome to its trip, `none` on the
exception path. -/
def okTrip : Except RideError Trip → Option Trip
  | Except.ok t => some t
  | Except.error _ => none

/-- A trip as produced by a successful booking: `ASSIGNED` to driver 1 with
OTP 1234 (spec scenario 4). -/
def tAssigned : Trip :=
  ⟨11, 201, some 1, ⟨0, 0⟩, ⟨5, 5⟩, pGo, 100, TripStatus.ASSIGNED, some 1234⟩

/-- Service state holding `tAssigned` registered under id 11, its driver
booked (unavailable). -/
def stAssigned : RSState := ⟨fun _ => false, [(11, tAssigned)]⟩

/-- `tAssigned` after a verified pickup: status `IN_TRANSIT`. -/
def tTransit : Trip :=
  ⟨11, 201, some 1, ⟨0, 0⟩, ⟨5, 5⟩, pGo, 100, TripStatus.IN_TRANSIT, some 1234⟩

/-- Service state holding `tTransit` registered under id 11, its driver
still booked. -/
def stTransit : RSState := ⟨fun _ => false, [(11, tTransit)]⟩

/-!
## Theorems
-/

/-- C1: evaluation of the claimed scenario on the code.  Two available
drivers (`dA` nearer, `dB` farther), both supporting the requested product;
three `request_ride` calls with unexpired quotes for that product and
pickup.  The claim asserts exactly two resulting trips end `ASSIGNED` on
distinct drivers and one ends `REQUESTED`; the code instead assigns only
the first call (to the nearer driver `dA`): `find_nearest_driver` never
filters by availability, so the later calls' retry loops re-select the
already-booked `dA` on all five attempts and both end `REQUESTED` with no
driver, while `dB` is still available throughout (`avail 2 = true`). -/
theorem c1_only_first_request_assigned :
    (okTrip run1.1).map Trip.status = some TripStatus.ASSIGNED ∧
    (okTrip run1.1).bind Trip.driver = some dA.user_id ∧
    (okTrip run2.1).map Trip.status = some TripStatus.REQUESTED ∧
    (okTrip run2.1).map Trip.driver = some none ∧
    (okTrip run3.1).map Trip.status = some TripStatus.REQUESTED ∧
    (okTrip run3.1).map Trip.driver = some none ∧
    run3.2.avail dB.user_id = true := by
  norm_num [run1, run2, run3, okTrip, RideService.request_ride, RideService.bookLoop,
    DriverMatchingService.find_nearest_driver, InMemoryListStorage.get_nearby_drivers,
    NearestLocationStrategy.find_driver, min_by_key, get_distance_sq,
    FareQuote.is_expired, FareQuote.create, MAX_RETRIES, Vehicle.supports,
    Driver.try_book, dA, dB, vGo, pGo, q0, st0]

/-- C2: evaluation of the claimed invariant on the code.  The claim asserts
that after any sequence of `update` calls each driver belongs to at most
one grid cell, the old cell's membership being removed on a move.  The
code's `update` only adds: after updating driver 0 at (0,0) (cell (0,0))
and again after it moved to (0.02, 0) (cell (2,0)), the driver is a member
of both distinct cells. -/
theorem c2_update_leaves_ghost_membership :
    0 ∈ SpatialIndex.update (SpatialIndex.update SpatialIndex.Grid.empty 0 ⟨0, 0⟩)
          0 ⟨2 / 100, 0⟩ (0, 0) ∧
    0 ∈ SpatialIndex.update (SpatialIndex.update SpatialIndex.Grid.empty 0 ⟨0, 0⟩)
          0 ⟨2 / 100, 0⟩ (2, 0) ∧
    ((0, 0) : ℤ × ℤ) ≠ (2, 0) := by
  refine ⟨?_, ?_, by decide⟩ <;>
    norm_num [SpatialIndex.update, SpatialIndex.get_cell_id, SpatialIndex.Grid.empty,
      SpatialIndex.cell_size, pyint, Int.floor_eq_iff]

theorem runOps_append (a : Bool) (l₁ l₂ : List DriverOp) :
    runOps a (l₁ ++ l₂) = runOps (runOps a l₁) l₂ := by
  simp [runOps, List.foldl_append]

theorem runOps_after_markAvailable (a : Bool) (p : List DriverOp) :
    runOps a (p ++ [DriverOp.markAvailable]) = true := by
  simp [runOps_append, runOps, DriverOp.step, Driver.mark_available]

theorem tryBookResults_of_unavailable (post : List DriverOp)
    (h : ∀ op ∈ post, op = DriverOp.tryBook) :
    tryBookResults false post = List.replicate post.length false := by
  induction post with
  | nil => rfl
  | cons op rest ih =>
    have hop : op = DriverOp.tryBook := h op (List.mem_cons_self op rest)
    subst hop
    have hrest := ih fun o ho => h o (List.mem_cons_of_mem _ ho)
    simp [tryBookResults, Driver.try_book, hrest, List.replicate_succ]

theorem runOps_of_unavailable (post : List DriverOp)
    (h : ∀ op ∈ post, op = DriverOp.tryBook) :
    runOps false post = false := by
  induction post with
  | nil => rfl
  | cons op rest ih =>
    have hop : op = DriverOp.tryBook := h op (List.mem_cons_self op rest)
    subst hop
    simpa [runOps, DriverOp.step, Driver.try_book] using
      ih fun o ho => h o (List.mem_cons_of_mem _ ho)

/-- C3: for a given driver, in every sequence of `try_book` and
`mark_available` calls, at most one `try_book` returns `true` between
driver creation (or a `mark_available` call) and the next `mark_available`:
in any such interval (a run of `try_book`s executed from creation, i.e.
from an empty history, or directly after a `mark_available`), the first
`try_book` returns `true` and flips the flag to unavailable, and every
subsequent `try_book` returns `false` with the flag staying unavailable. -/
theorem c3_try_book_at_most_one_success (pre post : List DriverOp)
    (hpre : pre = [] ∨ ∃ p, pre = p ++ [DriverOp.markAvailable])
    (hpost : ∀ op ∈ post, op = DriverOp.tryBook) :
    (tryBookResults (runOps true pre) post).count true ≤ 1 ∧
    (post ≠ [] →
      tryBookResults (runOps true pre) post =
        true :: List.replicate (post.length - 1) false ∧
      runOps (runOps true pre) post = false) := by
  have hstate : runOps true pre = true := by
    rcases hpre with h | ⟨p, hp⟩
    · simp [h, runOps]
    · rw [hp]; exact runOps_after_markAvailable true p
  rw [hstate]
  rcases post with _ | ⟨op, rest⟩
  · exact ⟨by simp [tryBookResults], fun h => absurd rfl h⟩
  · have hop : op = DriverOp.tryBook := hpost op (List.mem_cons_self op rest)
    subst hop
    have hrest : ∀ o ∈ rest, o = DriverOp.tryBook :=
      fun o ho => hpost o (List.mem_cons_of_mem _ ho)
    have h1 : tryBookResults true (DriverOp.tryBook :: rest) =
        true :: List.replicate rest.length false := by
      simp only [tryBookResults, Driver.try_book, if_pos rfl]
      exact congrArg (true :: ·) (tryBookResults_of_unavailable rest hrest)
    refine ⟨?_, fun _ => ⟨by simpa using h1, ?_⟩⟩
    · rw [h1]
      simp [List.count_cons, List.count_replicate]
    · show runOps true (DriverOp.tryBook :: rest) = false
      have : runOps true (DriverOp.tryBook :: rest) = runOps false rest := by
        simp [runOps, DriverOp.step, Driver.try_book]
      rw [this]
      exact runOps_of_unavailable rest hrest

/-- Witness for C3 at a concrete interval: history
`[tryBook, markAvailable]` followed by three `try_book` calls — the first
returns `true`, the remaining two `false`. -/
theorem c3_try_book_at_most_one_success_witness :
    tryBookResults (runOps true [DriverOp.tryBook, DriverOp.markAvailable])
        [DriverOp.tryBook, DriverOp.tryBook, DriverOp.tryBook] =
      [true, false, false] :=
  ((c3_try_book_at_most_one_success [DriverOp.tryBook, DriverOp.markAvailable]
      [DriverOp.tryBook, DriverOp.tryBook, DriverOp.tryBook]
      (Or.inr ⟨[DriverOp.tryBook], rfl⟩) (by decide)).2 (by decide)).1

/-- C4: `request_ride` on a quote whose expiry time has passed raises
`QuoteExpired` and has no other effect — the returned state is the input
state unchanged (no availability flag changes, no trip registered), and no
trip or OTP is produced. -/
theorem c4_request_ride_expired_quote
    (strategy : Location → List Driver → Option Driver) (drivers : List Driver)
    (now : ℚ) (rider : ℕ) (quote : FareQuote) (trip_id otp : ℕ) (st : RSState)
    (h : quote.is_expired now = true) :
    RideService.request_ride strategy drivers now rider quote trip_id otp st =
      (Except.error RideError.quoteExpired, st) := by
  simp [RideService.request_ride, h]

/-- Witness for C4: a quote created at time 0 (expiry 5) requested at time
6 raises `QuoteExpired`, leaving the fresh state untouched. -/
theorem c4_request_ride_expired_quote_witness :
    q0.is_expired 6 = true ∧
    RideService.request_ride NearestLocationStrategy.find_driver [dA, dB] 6 205 q0
        15 5555 st0 = (Except.error RideError.quoteExpired, st0) :=
  have h : q0.is_expired 6 = true := by
    norm_num [q0, FareQuote.is_expired, FareQuote.create]
  ⟨h, c4_request_ride_expired_quote NearestLocationStrategy.find_driver [dA, dB]
    6 205 q0 15 5555 st0 h⟩

theorem bookLoop_of_find_none
    (strategy : Location → List Driver → Option Driver) (drivers : List Driver)
    (pickup : Location) (product : Product) (n : ℕ) (avail : ℕ → Bool)
    (h : DriverMatchingService.find_nearest_driver strategy drivers pickup product = none) :
    RideService.bookLoop strategy drivers pickup product n avail = (none, avail) := by
  cases n <;> simp [RideService.bookLoop, h]

theorem bookLoop_of_candidate_unavailable
    (strategy : Location → List Driver → Option Driver) (drivers : List Driver)
    (pickup : Location) (product : Product) (d : Driver)
    (hfind : DriverMatchingService.find_nearest_driver strategy drivers pickup product = some d)
    (n : ℕ) (avail : ℕ → Bool) (hav : avail d.user_id = false) :
    RideService.bookLoop strategy drivers pickup product n avail = (none, avail) := by
  induction n with
  | zero => rfl
  | succ n ih => simp [RideService.bookLoop, hfind, Driver.try_book, hav, ih]

theorem bookLoop_none_preserves_avail
    (strategy : Location → List Driver → Option Driver) (drivers : List Driver)
    (pickup : Location) (product : Product) :
    ∀ (n : ℕ) (avail avail' : ℕ → Bool),
      RideService.bookLoop strategy drivers pickup product n avail = (none, avail') →
      avail' = avail := by
  intro n
  induction n with
  | zero => intro avail avail' h; exact (congrArg Prod.snd h).symm
  | succ n ih =>
    intro avail avail' h
    rw [RideService.bookLoop] at h
    rcases hfind : DriverMatchingService.find_nearest_driver strategy drivers pickup product with
      _ | d
    · rw [hfind] at h; exact (congrArg Prod.snd h).symm
    · rw [hfind] at h
      by_cases hav : avail d.user_id
      · simp [Driver.try_book, hav] at h
      · simp only [Driver.try_book, hav, if_false, Bool.false_eq_true] at h
        exact ih avail avail' (by simpa using h)

/-- C5: a `request_ride` call with an unexpired quote whose retry loop
exhausts without a successful booking — because no candidate is returned,
or because the candidate the matching returns cannot be booked on any of
the 5 attempts — returns normally (no exception) with a Trip in status
`REQUESTED`, no driver and no OTP, and leaves the service state
unchanged. -/
theorem c5_request_ride_soft_failure
    (strategy : Location → List Driver → Option Driver) (drivers : List Driver)
    (now : ℚ) (rider : ℕ) (quote : FareQuote) (trip_id otp : ℕ) (st : RSState)
    (hq : quote.is_expired now = false)
    (hno : DriverMatchingService.find_nearest_driver strategy drivers quote.pickup
             quote.product = none ∨
           ∃ d, DriverMatchingService.find_nearest_driver strategy drivers quote.pickup
                  quote.product = some d ∧ st.avail d.user_id = false) :
    RideService.request_ride strategy drivers now rider quote trip_id otp st =
      (Except.ok
        { trip_id := trip_id, rider := rider, driver := none,
          pickup := quote.pickup, dropoff := quote.dropoff,
          product := quote.product, estimated_fare := quote.amount,
          status := TripStatus.REQUESTED, otp := none }, st) := by
  have hloop : RideService.bookLoop strategy drivers quote.pickup quote.product
      MAX_RETRIES st.avail = (none, st.avail) := by
    rcases hno with h | ⟨d, hfind, hav⟩
    · exact bookLoop_of_find_none _ _ _ _ _ _ h
    · exact bookLoop_of_candidate_unavailable _ _ _ _ d hfind _ _ hav
  simp [RideService.request_ride, hq, hloop]

/-- Witness for C5: an empty driver directory (matching returns no
candidate) with an unexpired quote yields a `REQUESTED`, driverless,
OTP-less trip and an unchanged state. -/
theorem c5_request_ride_soft_failure_witness :
    q0.is_expired 0 = false ∧
    RideService.request_ride NearestLocationStrategy.find_driver [] 0 201 q0 11
        1111 st0 =
      (Except.ok
        { trip_id := 11, rider := 201, driver := none,
          pickup := q0.pickup, dropoff := q0.dropoff,
          product := q0.product, estimated_fare := q0.amount,
          status := TripStatus.REQUESTED, otp := none }, st0) :=
  have hq : q0.is_expired 0 = false := by
    norm_num [q0, FareQuote.is_expired, FareQuote.create]
  ⟨hq, c5_request_ride_soft_failure NearestLocationStrategy.find_driver [] 0 201 q0
    11 1111 st0 hq (Or.inl rfl)⟩

/-- C10: a trip returned by `request_ride` as a soft failure (driver
absent) is never added to the trip registry — the registry is written only
in the successful-booking branch — so, its id being fresh, `start_ride`
and `end_ride` on that id fail as not-found and the trip can never leave
`REQUESTED` through `RideService`. -/
theorem c10_soft_failed_trip_not_registered
    (strategy : Location → List Driver → Option Driver) (drivers : List Driver)
    (now : ℚ) (rider : ℕ) (quote : FareQuote) (trip_id otp : ℕ) (st : RSState)
    (t : Trip) (st' : RSState)
    (h : RideService.request_ride strategy drivers now rider quote trip_id otp st =
      (Except.ok t, st'))
    (hdriver : t.driver = none)
    (hfresh : st.trips.lookup trip_id = none) :
    st'.trips = st.trips ∧
    (∀ otp' : ℕ, RideService.start_ride trip_id otp' st' = (false, st')) ∧
    RideService.end_ride trip_id st' = (false, st') := by
  rw [RideService.request_ride] at h
  by_cases hq : quote.is_expired now
  · simp [hq] at h
  · simp only [hq, Bool.false_eq_true, if_false] at h
    rcases hloop : RideService.bookLoop strategy drivers quote.pickup quote.product
        MAX_RETRIES st.avail with ⟨_ | d, avail'⟩
    · rw [hloop] at h
      injection h with h1 h2
      have htrips : st'.trips = st.trips := by rw [← h2]
      refine ⟨htrips, fun otp' => ?_, ?_⟩
      · rw [RideService.start_ride, htrips, hfresh]
      · rw [RideService.end_ride, htrips, hfresh]
    · rw [hloop] at h
      injection h with h1 h2
      injection h1 with h1
      rw [← h1] at hdriver
      exact absurd hdriver (by simp)

/-- Witness for C10: the soft-failed request of the C5 witness (empty
directory, fresh trip id 11) leaves the registry empty and `start_ride` /
`end_ride` on id 11 return `false`. -/
theorem c10_soft_failed_trip_not_registered_witness :
    (RideService.request_ride NearestLocationStrategy.find_driver [] 0 201 q0 11
        1111 st0).2.trips = st0.trips ∧
    RideService.start_ride 11 1111
        (RideService.request_ride NearestLocationStrategy.find_driver [] 0 201 q0 11
          1111 st0).2 =
      (false, (RideService.request_ride NearestLocationStrategy.find_driver [] 0 201
        q0 11 1111 st0).2) := by
  have hrun : RideService.request_ride NearestLocationStrategy.find_driver [] 0 201 q0
      11 1111 st0 =
      (Except.ok ⟨11, 201, none, ⟨0, 0⟩, ⟨5, 5⟩, pGo, 100, TripStatus.REQUESTED, none⟩,
        st0) := by
    norm_num [RideService.request_ride, RideService.bookLoop,
      DriverMatchingService.find_nearest_driver, InMemoryListStorage.get_nearby_drivers,
      NearestLocationStrategy.find_driver, min_by_key, FareQuote.is_expired,
      FareQuote.create, MAX_RETRIES, q0, pGo, st0]
  have hmain := c10_soft_failed_trip_not_registered NearestLocationStrategy.find_driver
    [] 0 201 q0 11 1111 st0 _ _ hrun rfl rfl
  rw [hrun]
  exact ⟨hmain.1, hmain.2.1 1111⟩

theorem lookup_map_replace (l : List (ℕ × Trip)) (k : ℕ) (v t : Trip)
    (h : l.lookup k = some t) :
    (l.map fun p => if p.1 = k then (k, v) else p).lookup k = some v := by
  induction l with
  | nil => exact absurd h (by simp [List.lookup])
  | cons p rest ih =>
    rcases p with ⟨a, b⟩
    rcases hbeq : (k == a) with _ | _
    · have hne : ¬(a = k) := by
        intro hc
        subst hc
        simp at hbeq
      have hstep : List.lookup k ((a, b) :: rest) = List.lookup k rest := by
        rw [List.lookup, hbeq]
      rw [hstep] at h
      have hmap : ((a, b) :: rest).map (fun p => if p.1 = k then (k, v) else p) =
          (a, b) :: rest.map (fun p => if p.1 = k then (k, v) else p) := by
        rw [List.map_cons]
        congr 1
        exact if_neg hne
      rw [hmap, List.lookup, hbeq]
      exact ih h
    · have hak : k = a := by simpa using hbeq
      subst hak
      have hmap : ((k, b) :: rest).map (fun p => if p.1 = k then (k, v) else p) =
          (k, v) :: rest.map (fun p => if p.1 = k then (k, v) else p) := by
        rw [List.map_cons]
        congr 1
        exact if_pos rfl
      rw [hmap, List.lookup, hbeq]

/-- C6: `start_ride(tripId, otp)` returns `true` iff a trip with that id is
registered, its status is `ASSIGNED` and the supplied OTP equals its stored
OTP; on `true` the trip's status becomes `IN_TRANSIT` (availability flags
untouched); on `false` the whole service state is unchanged and no
exception is raised (the embedding is a total function). -/
theorem c6_start_ride_spec (trip_id otp : ℕ) (st : RSState) :
    ((RideService.start_ride trip_id otp st).1 = true ↔
      ∃ t, st.trips.lookup trip_id = some t ∧ t.status = TripStatus.ASSIGNED ∧
        t.otp = some otp) ∧
    ((RideService.start_ride trip_id otp st).1 = true →
      ∃ t, st.trips.lookup trip_id = some t ∧
        (RideService.start_ride trip_id otp st).2.trips.lookup trip_id =
          some { t with status := TripStatus.IN_TRANSIT } ∧
        (RideService.start_ride trip_id otp st).2.avail = st.avail) ∧
    ((RideService.start_ride trip_id otp st).1 = false →
      (RideService.start_ride trip_id otp st).2 = st) := by
  rcases hlk : st.trips.lookup trip_id with _ | t
  · refine ⟨?_, ?_, ?_⟩ <;> simp [RideService.start_ride, hlk]
  · by_cases hs : t.status = TripStatus.ASSIGNED
    · by_cases ho : t.otp = some otp
      · have hr : RideService.start_ride trip_id otp st =
            (true, { st with trips := st.trips.map fun p =>
              if p.1 = trip_id then (trip_id, { t with status := TripStatus.IN_TRANSIT })
              else p }) := by
          simp [RideService.start_ride, hlk, Trip.start_ride, hs, ho]
        refine ⟨?_, ?_, ?_⟩
        · rw [hr]
          simp only [true_iff]
          exact ⟨t, rfl, hs, ho⟩
        · intro _
          exact ⟨t, rfl, by rw [hr]; exact lookup_map_replace _ _ _ _ hlk, by rw [hr]⟩
        · rw [hr]
          intro hfalse
          exact absurd hfalse (by simp)
      · have hr : RideService.start_ride trip_id otp st = (false, st) := by
          simp [RideService.start_ride, hlk, Trip.start_ride, hs, ho]
        rw [hr]
        refine ⟨?_, by simp, fun _ => rfl⟩
        simp only [Bool.false_eq_true, false_iff]
        rintro ⟨t', hlk', -, ho'⟩
        cases hlk'
        exact ho ho'
    · have hr : RideService.start_ride trip_id otp st = (false, st) := by
        simp [RideService.start_ride, hlk, Trip.start_ride, hs]
      rw [hr]
      refine ⟨?_, by simp, fun _ => rfl⟩
      simp only [Bool.false_eq_true, false_iff]
      rintro ⟨t', hlk', hs', -⟩
      cases hlk'
      exact hs hs'

/-- Witness for C6 at spec scenario 4: with trip 11 `ASSIGNED` under OTP
1234, `start_ride(11, 4321)` returns `false` leaving the state unchanged,
and `start_ride(11, 1234)` returns `true`. -/
theorem c6_start_ride_spec_witness :
    (RideService.start_ride 11 4321 stAssigned).1 = false ∧
    (RideService.start_ride 11 4321 stAssigned).2 = stAssigned ∧
    (RideService.start_ride 11 1234 stAssigned).1 = true := by
  have h4321 := c6_start_ride_spec 11 4321 stAssigned
  have hfalse : (RideService.start_ride 11 4321 stAssigned).1 = false := by
    rcases hb : (RideService.start_ride 11 4321 stAssigned).1 with _ | _
    · rfl
    · rcases h4321.1.mp hb with ⟨t, hlk, -, ho⟩
      have ht : t = tAssigned := by
        have h0 : stAssigned.trips.lookup 11 = some tAssigned := rfl
        rw [h0] at hlk
        cases hlk
        rfl
      subst ht
      exact absurd ho (by decide)
  exact ⟨hfalse, h4321.2.2 hfalse,
    (c6_start_ride_spec 11 1234 stAssigned).1.mpr ⟨tAssigned, rfl, rfl, rfl⟩⟩

/-- C7: `end_ride(tripId)` returns `true` iff a trip with that id is
registered and its status is `IN_TRANSIT`; on `true` the trip's status
becomes `COMPLETED` and the attached driver is marked available again, so
a subsequent `try_book` on that driver succeeds; on `false` all trip and
driver state is unchanged. -/
theorem c7_end_ride_spec (trip_id : ℕ) (st : RSState) :
    ((RideService.end_ride trip_id st).1 = true ↔
      ∃ t, st.trips.lookup trip_id = some t ∧ t.status = TripStatus.IN_TRANSIT) ∧
    ((RideService.end_ride trip_id st).1 = true →
      ∃ t, st.trips.lookup trip_id = some t ∧
        (RideService.end_ride trip_id st).2.trips.lookup trip_id =
          some { t with status := TripStatus.COMPLETED } ∧
        ∀ d, t.driver = some d →
          (RideService.end_ride trip_id st).2.avail d = true ∧
          Driver.try_book ((RideService.end_ride trip_id st).2.avail d) =
            (true, false)) ∧
    ((RideService.end_ride trip_id st).1 = false →
      (RideService.end_ride trip_id st).2 = st) := by
  rcases hlk : st.trips.lookup trip_id with _ | t
  · refine ⟨?_, ?_, ?_⟩ <;> simp [RideService.end_ride, hlk]
  · by_cases hs : t.status = TripStatus.IN_TRANSIT
    · have hr : RideService.end_ride trip_id st =
          (true,
            { avail :=
                match t.driver with
                | some d => fun x =>
                    if x = d then Driver.mark_available (st.avail x) else st.avail x
                | none => st.avail,
              trips := st.trips.map fun p =>
                if p.1 = trip_id then (trip_id, { t with status := TripStatus.COMPLETED })
                else p }) := by
        simp [RideService.end_ride, hlk, Trip.end_ride, hs]
      refine ⟨?_, ?_, ?_⟩
      · rw [hr]
        simp only [true_iff]
        exact ⟨t, rfl, hs⟩
      · intro _
        refine ⟨t, rfl, by rw [hr]; exact lookup_map_replace _ _ _ _ hlk, ?_⟩
        intro d hd
        have havail : (RideService.end_ride trip_id st).2.avail d = true := by
          rw [hr]
          simp only [hd]
          simp [Driver.mark_available]
        exact ⟨havail, by rw [havail]; rfl⟩
      · rw [hr]
        intro hfalse
        exact absurd hfalse (by simp)
    · have hr : RideService.end_ride trip_id st = (false, st) := by
        simp [RideService.end_ride, hlk, Trip.end_ride, hs]
      rw [hr]
      refine ⟨?_, by simp, fun _ => rfl⟩
      simp only [Bool.false_eq_true, false_iff]
      rintro ⟨t', hlk', hs'⟩
      cases hlk'
      exact hs hs'

/-- Witness for C7 at spec scenario 5: ending trip 11 while `IN_TRANSIT`
returns `true` and the attached driver 1, previously booked, can be booked
again (`try_book` succeeds). -/
theorem c7_end_ride_spec_witness :
    (RideService.end_ride 11 stTransit).1 = true ∧
    (RideService.end_ride 11 stTransit).2.avail 1 = true := by
  have h := c7_end_ride_spec 11 stTransit
  have htrue : (RideService.end_ride 11 stTransit).1 = true :=
    h.1.mpr ⟨tTransit, rfl, rfl⟩
  rcases h.2.1 htrue with ⟨t, hlk, -, hdrv⟩
  have ht : t = tTransit := by
    have hlk0 : stTransit.trips.lookup 11 = some tTransit := rfl
    rw [hlk0] at hlk
    cases hlk
    rfl
  subst ht
  exact ⟨htrue, (hdrv 1 rfl).1⟩

theorem foldl_min_spec {α κ : Type*} [LinearOrder κ] (key : α → κ) :
    ∀ (xs : List α) (x : α), ∃ l₁ l₂,
      x :: xs = l₁ ++ (xs.foldl (fun best d => if key d < key best then d else best) x) :: l₂ ∧
      (∀ e ∈ x :: xs,
        key (xs.foldl (fun best d => if key d < key best then d else best) x) ≤ key e) ∧
      (∀ e ∈ l₁,
        key (xs.foldl (fun best d => if key d < key best then d else best) x) < key e) := by
  intro xs
  induction xs with
  | nil =>
    intro x
    exact ⟨[], [], rfl, by simp, by simp⟩
  | cons d rest ih =>
    intro x
    simp only [List.foldl_cons]
    by_cases h : key d < key x
    · rw [if_pos h]
      obtain ⟨l₁, l₂, hdec, hmin, hpre⟩ := ih d
      refine ⟨x :: l₁, l₂, ?_, ?_, ?_⟩
      · rw [List.cons_append, ← hdec]
      · intro e he
        rcases List.mem_cons.mp he with rfl | he'
        · exact le_of_lt (lt_of_le_of_lt (hmin d (List.mem_cons_self d rest)) h)
        · exact hmin e he'
      · intro e he
        rcases List.mem_cons.mp he with rfl | he'
        · exact lt_of_le_of_lt (hmin d (List.mem_cons_self d rest)) h
        · exact hpre e he'
    · rw [if_neg h]
      have hxd : key x ≤ key d := not_lt.mp h
      obtain ⟨l₁, l₂, hdec, hmin, hpre⟩ := ih x
      rcases l₁ with _ | ⟨y, t⟩
      · rw [List.nil_append] at hdec
        injection hdec with h1 h2
        refine ⟨[], d :: rest, ?_, ?_, by simp⟩
        · rw [List.nil_append, ← h1]
        · intro e he
          rcases List.mem_cons.mp he with rfl | he'
          · rw [← h1]
          · rcases List.mem_cons.mp he' with rfl | he''
            · rw [← h1]
              exact hxd
            · exact hmin e (List.mem_cons_of_mem x he'')
      · injection hdec with h1 h2
        have h2' : rest =
            t ++ (rest.foldl (fun best d => if key d < key best then d else best) x) :: l₂ :=
          h2
        have hxy : key x = key y := congrArg key h1
        have hry : key (rest.foldl (fun best d => if key d < key best then d else best) x) <
            key x := by
          have h' := hpre y (List.mem_cons_self y t)
          rw [← hxy] at h'
          exact h'
        refine ⟨x :: d :: t, l₂, ?_, ?_, ?_⟩
        · rw [List.cons_append, List.cons_append, ← h2']
        · intro e he
          rcases List.mem_cons.mp he with rfl | he'
          · exact hmin e (List.mem_cons_self e rest)
          · rcases List.mem_cons.mp he' with rfl | he''
            · exact le_of_lt (lt_of_lt_of_le hry hxd)
            · exact hmin e (List.mem_cons_of_mem x he'')
        · intro e he
          rcases List.mem_cons.mp he with rfl | he'
          · exact hry
          · rcases List.mem_cons.mp he' with rfl | he''
            · exact lt_of_lt_of_le hry hxd
            · exact hpre e (List.mem_cons_of_mem y he'')

/-- C8: `NearestLocationStrategy.find_driver` returns `none` on the empty
candidate list; on a nonempty list it returns the first element of minimal
Euclidean distance to the pickup: the result occurs in the list, its
(squared, hence by monotonicity of `Real.sqrt` also its genuine) Euclidean
distance is minimal over the list, and every element strictly before it in
list order has strictly greater distance.  The embedding is a pure
function, so no candidate or other state is mutated. -/
theorem c8_nearest_location_strategy_spec (pickup : Location) (l : List Driver) :
    (l = [] → NearestLocationStrategy.find_driver pickup l = none) ∧
    (l ≠ [] → ∃ d l₁ l₂,
      NearestLocationStrategy.find_driver pickup l = some d ∧
      l = l₁ ++ d :: l₂ ∧
      (∀ e ∈ l, get_distance_sq pickup d ≤ get_distance_sq pickup e) ∧
      (∀ e ∈ l, Real.sqrt ((get_distance_sq pickup d : ℚ) : ℝ) ≤
        Real.sqrt ((get_distance_sq pickup e : ℚ) : ℝ)) ∧
      (∀ e ∈ l₁, get_distance_sq pickup d < get_distance_sq pickup e)) := by
  constructor
  · rintro rfl
    rfl
  · intro hne
    rcases l with _ | ⟨x, xs⟩
    · exact absurd rfl hne
    obtain ⟨l₁, l₂, hdec, hmin, hpre⟩ := foldl_min_spec (get_distance_sq pickup) xs x
    refine ⟨_, l₁, l₂, rfl, hdec, hmin, ?_, hpre⟩
    intro e he
    exact Real.sqrt_le_sqrt (by exact_mod_cast hmin e he)

/-- Witness for C8 at spec scenario 1: candidates `dA` at (0,0) and `dB` at
(1,1), pickup (0,0) — the strategy picks a minimal-distance candidate. -/
theorem c8_nearest_location_strategy_spec_witness :
    ([dA, dB] : List Driver) ≠ [] ∧
    (∃ d l₁ l₂,
      NearestLocationStrategy.find_driver ⟨0, 0⟩ [dA, dB] = some d ∧
      ([dA, dB] : List Driver) = l₁ ++ d :: l₂ ∧
      (∀ e ∈ ([dA, dB] : List Driver),
        get_distance_sq ⟨0, 0⟩ d ≤ get_distance_sq ⟨0, 0⟩ e) ∧
      (∀ e ∈ ([dA, dB] : List Driver),
        Real.sqrt ((get_distance_sq ⟨0, 0⟩ d : ℚ) : ℝ) ≤
          Real.sqrt ((get_distance_sq ⟨0, 0⟩ e : ℚ) : ℝ)) ∧
      (∀ e ∈ l₁, get_distance_sq ⟨0, 0⟩ d < get_distance_sq ⟨0, 0⟩ e)) :=
  ⟨by simp, (c8_nearest_location_strategy_spec ⟨0, 0⟩ [dA, dB]).2 (by simp)⟩

/-- C9: `RatingBasedMatchingStrategy.find_driver` returns `none` on the
empty candidate list; on a nonempty list it returns a member of maximal
rating, and among candidates tied at that rating one of minimal (squared,
hence by monotonicity of `Real.sqrt` also genuine) Euclidean distance to
the pickup. -/
theorem c9_rating_based_strategy_spec (pickup : Location) (l : List Driver) :
    (l = [] → RatingBasedMatchingStrategy.find_driver pickup l = none) ∧
    (l ≠ [] → ∃ d,
      RatingBasedMatchingStrategy.find_driver pickup l = some d ∧ d ∈ l ∧
      (∀ e ∈ l, e.rating ≤ d.rating) ∧
      (∀ e ∈ l, e.rating = d.rating →
        get_distance_sq pickup d ≤ get_distance_sq pickup e) ∧
      (∀ e ∈ l, e.rating = d.rating →
        Real.sqrt ((get_distance_sq pickup d : ℚ) : ℝ) ≤
          Real.sqrt ((get_distance_sq pickup e : ℚ) : ℝ))) := by
  constructor
  · rintro rfl
    rfl
  · intro hne
    rcases l with _ | ⟨x, xs⟩
    · exact absurd rfl hne
    obtain ⟨l₁, l₂, hdec, hmin, hpre⟩ := foldl_min_spec (get_sort_key pickup) xs x
    refine ⟨_, rfl, ?_, ?_, ?_, ?_⟩
    · rw [hdec]
      exact List.mem_append_right l₁ (List.mem_cons_self _ _)
    · intro e he
      have hk := hmin e he
      rw [get_sort_key, get_sort_key, Prod.Lex.le_iff] at hk
      rcases hk with hk | ⟨hk, -⟩
      · exact le_of_lt (neg_lt_neg_iff.mp hk)
      · exact le_of_eq (neg_injective hk).symm
    · intro e he hrat
      have hk := hmin e he
      rw [get_sort_key, get_sort_key, Prod.Lex.le_iff] at hk
      rcases hk with hk | ⟨-, hk⟩
      · rw [hrat] at hk
        exact absurd hk (lt_irrefl _)
      · exact hk
    · intro e he hrat
      have hk := hmin e he
      rw [get_sort_key, get_sort_key, Prod.Lex.le_iff] at hk
      rcases hk with hk | ⟨-, hk⟩
      · rw [hrat] at hk
        exact absurd hk (lt_irrefl _)
      · exact Real.sqrt_le_sqrt (by exact_mod_cast hk)

/-- Witness for C9 at spec scenario 1: candidates `dA` (rating 4.8 at
(0,0)) and `dB` (rating 4.9 at (1,1)), pickup (0,0) — the strategy picks a
maximal-rating candidate, distance-minimal among its rating ties. -/
theorem c9_rating_based_strategy_spec_witness :
    ([dA, dB] : List Driver) ≠ [] ∧
    (∃ d, RatingBasedMatchingStrategy.find_driver ⟨0, 0⟩ [dA, dB] = some d ∧
      d ∈ ([dA, dB] : List Driver) ∧
      (∀ e ∈ ([dA, dB] : List Driver), e.rating ≤ d.rating) ∧
      (∀ e ∈ ([dA, dB] : List Driver), e.rating = d.rating →
        get_distance_sq ⟨0, 0⟩ d ≤ get_distance_sq ⟨0, 0⟩ e) ∧
      (∀ e ∈ ([dA, dB] : List Driver), e.rating = d.rating →
        Real.sqrt ((get_distance_sq ⟨0, 0⟩ d : ℚ) : ℝ) ≤
          Real.sqrt ((get_distance_sq ⟨0, 0⟩ e : ℚ) : ℝ))) :=
  ⟨by simp, (c9_rating_based_strategy_spec ⟨0, 0⟩ [dA, dB]).2 (by simp)⟩

end Uber
